import Mathlib

/-
Verification development for the XTP broker-connectivity gateway
(src/vnpy_xtp/gateway/xtp_gateway.py).

Modelling conventions:
* Python dicts keyed by strings become association lists with Python's
  update semantics: replace the entry in place if the key is present,
  otherwise append at the end.
* XTP datetimes are carried as the raw numeric timestamps of the feed
  (format YYYYMMDDhhmmssmmm).  For well-formed fixed-width stamps the
  numeric order coincides with the chronological order of the datetime
  objects parsed by strptime, so comparisons are Nat comparisons.
* Prices are rationals.
* Calls into the vendor SDK and callbacks into the host gateway are
  recorded as explicit output events; logging calls are recorded as
  payload-free markers.  A Python exception escaping a handler is
  recorded in an `err` field of the handler's result.
-/

namespace VnpyXtp

/-- The exchanges this gateway supports (keys of EXCHANGE_VT2XTP). -/
inductive Exchange
  | SSE
  | SZSE
deriving DecidableEq, Repr

/-- `Exchange.value` strings used to build vt_symbol keys. -/
def exchangeValue : Exchange → String
  | .SSE => "SSE"
  | .SZSE => "SZSE"

inductive Direction
  | LONG
  | SHORT
  | NET
deriving DecidableEq, Repr

inductive Offset
  | NONE
  | OPEN
  | CLOSE
  | CLOSETODAY
  | CLOSEYESTERDAY
deriving DecidableEq, Repr

inductive OrderType
  | LIMIT
  | MARKET
  | FOK
deriving DecidableEq, Repr

inductive Status
  | SUBMITTING
  | NOTTRADED
  | PARTTRADED
  | ALLTRADED
  | CANCELLED
  | REJECTED
deriving DecidableEq, Repr

/-- MARKET_XTP2VT: 1 -> SZSE, 2 -> SSE (a missing key raises KeyError). -/
def MARKET_XTP2VT : Nat → Option Exchange
  | 1 => some .SZSE
  | 2 => some .SSE
  | _ => none

/-- EXCHANGE_XTP2VT: 1 -> SSE, 2 -> SZSE. -/
def EXCHANGE_XTP2VT : Nat → Option Exchange
  | 1 => some .SSE
  | 2 => some .SZSE
  | _ => none

/-- EXCHANGE_VT2XTP: inverse of EXCHANGE_XTP2VT (total on our Exchange). -/
def EXCHANGE_VT2XTP : Exchange → Nat
  | .SSE => 1
  | .SZSE => 2

/-- DIRECTION_STOCK_XTP2VT. -/
def DIRECTION_STOCK_XTP2VT : Nat → Option (Direction × Offset)
  | 1 => some (.LONG, .NONE)
  | 2 => some (.SHORT, .NONE)
  | 21 => some (.LONG, .OPEN)
  | 22 => some (.SHORT, .OPEN)
  | 24 => some (.LONG, .CLOSE)
  | 23 => some (.SHORT, .CLOSE)
  | _ => none

/-- DIRECTION_OPTION_XTP2VT. -/
def DIRECTION_OPTION_XTP2VT : Nat → Option Direction
  | 1 => some .LONG
  | 2 => some .SHORT
  | _ => none

/-- OFFSET_XTP2VT (inverse of OFFSET_VT2XTP). -/
def OFFSET_XTP2VT : Nat → Option Offset
  | 0 => some .NONE
  | 1 => some .OPEN
  | 2 => some .CLOSE
  | 4 => some .CLOSETODAY
  | 5 => some .CLOSEYESTERDAY
  | _ => none

/-- OPTION_ORDERTYPE_XTP2VT. -/
def OPTION_ORDERTYPE_XTP2VT : Nat → Option OrderType
  | 1 => some .LIMIT
  | 2 => some .MARKET
  | 8 => some .FOK
  | _ => none

/-- EQUITY_ORDERTYPE_XTP2VT. -/
def EQUITY_ORDERTYPE_XTP2VT : Nat → Option OrderType
  | 1 => some .LIMIT
  | 4 => some .MARKET
  | _ => none

/-- STAR_ORDERTYPE_XTP2VT (STAR board, symbols starting with 688). -/
def STAR_ORDERTYPE_XTP2VT : Nat → Option OrderType
  | 1 => some .LIMIT
  | 7 => some .MARKET
  | _ => none

/-- PROTOCOL_VT2XTP. -/
def PROTOCOL_VT2XTP : String → Option Nat
  | "TCP" => some 1
  | "UDP" => some 2
  | _ => none

/-- STATUS_XTP2VT. -/
def STATUS_XTP2VT : Nat → Option Status
  | 0 => some .SUBMITTING
  | 1 => some .ALLTRADED
  | 2 => some .PARTTRADED
  | 3 => some .CANCELLED
  | 4 => some .NOTTRADED
  | 5 => some .CANCELLED
  | 6 => some .REJECTED
  | 7 => some .SUBMITTING
  | _ => none

/-- Python dict lookup (`d.get(k)` / `d[k]`): first entry with the key. -/
def alistGet {α : Type} : List (String × α) → String → Option α
  | [], _ => none
  | p :: rest, k => if p.1 = k then some p.2 else alistGet rest k

/-- Python dict update (`d[k] = v`): replace the entry in place if the key
is present, otherwise append at the end. -/
def alistSet {α : Type} : List (String × α) → String → α → List (String × α)
  | [], k, v => [(k, v)]
  | p :: rest, k, v => if p.1 = k then (k, v) :: rest else p :: alistSet rest k v

/-- Python set add (`s.add(e)`) on the subscription registry. -/
def setAdd (l : List (String × Exchange)) (e : String × Exchange) :
    List (String × Exchange) :=
  if e ∈ l then l else l ++ [e]

/-- Modelled from the spec: `round_to` is imported from
`vnpy.trader.utility` (outside src/); it rounds a price to the nearest
multiple of the contract's price tick. -/
def round_to (value target : ℚ) : ℚ :=
  (round (value / target) : ℤ) * target

/-- Modelled from the spec: `DateUtil.datetime_a_le_b` is imported from
`vnpy.trader.utility` (outside src/).  Per its name, and per §8 of the
design ("any tick with timestamp ≤ last accepted is dropped"), it decides
whether timestamp `a` is less than or equal to timestamp `b`. -/
def datetime_a_le_b (a b : Nat) : Bool :=
  a ≤ b

/-- The fields of a cached ContractData that the tick path reads. -/
structure ContractData where
  symbol : String
  exchange : Exchange
  name : String
  pricetick : ℚ
deriving DecidableEq, Repr

/-- A published TickData (fields assigned by onDepthMarketData). -/
structure TickPub where
  symbol : String
  exchange : Exchange
  datetime : Nat
  volume : ℚ
  turnover : ℚ
  last_price : ℚ
  limit_up : ℚ
  limit_down : ℚ
  open_price : ℚ
  high_price : ℚ
  low_price : ℚ
  pre_close : ℚ
  bid_price : List ℚ
  ask_price : List ℚ
  bid_volume : List ℚ
  ask_volume : List ℚ
  name : String
deriving DecidableEq, Repr

/-- The raw market-data payload read by onDepthMarketData. -/
structure RawTick where
  data_time : Nat
  ticker : String
  exchange_id : Nat
  qty : ℚ
  turnover : ℚ
  last_price : ℚ
  upper_limit_price : ℚ
  lower_limit_price : ℚ
  open_price : ℚ
  high_price : ℚ
  low_price : ℚ
  pre_close_price : ℚ
  bid : List ℚ
  ask : List ℚ
  bid_qty : List ℚ
  ask_qty : List ℚ
deriving DecidableEq, Repr

/-- Mutable fields of XtpMdApi. -/
structure MdState where
  userid : String := ""
  password : String := ""
  client_id : Nat := 0
  server_ip : String := ""
  server_port : Nat := 0
  protocol : Nat := 0
  session_id : Nat := 0
  connect_status : Bool := false
  login_status : Bool := false
  sse_inited : Bool := false
  szse_inited : Bool := false
  subscribe_request_list : List (String × Exchange) := []
  last_tick_time : List (String × Nat) := []
  re_connect_times : Nat := 0
  subscribe_all : Bool := false
  local_ip : String := "127.0.0.1"
deriving DecidableEq, Repr

/-- Vendor SDK calls made by XtpMdApi. -/
inductive MdCall
  | createQuoteApi (client_id : Nat) (log_level : Nat)
  | setHeartBeatInterval (secs : Nat)
  | setUDPBufferSize (size : Nat)
  | login (ip : String) (port : Nat) (userid : String) (password : String)
      (protocol : Nat) (local_ip : String)
  | getApiLastError
  | initApi
  | queryAllTickers (exchange_id : Nat)
  | subscribeMarketData (symbol : String) (count : Nat) (exchange_id : Nat)
  | unSubscribeMarketData (symbol : String) (count : Nat) (exchange_id : Nat)
  | subscribeAllMarketData
deriving DecidableEq, Repr

/-- Outputs of an XtpMdApi handler: vendor calls, log markers, the backoff
sleep.  (Log markers carry no payload; the messages are f-strings.) -/
inductive MdOut
  | vendor (c : MdCall)
  | sleepSecs (n : Nat)
  | writeLog
  | logInfo
deriving DecidableEq, Repr

/-- Outcome of onDepthMarketData for one raw tick.
`keyError` models the KeyError escaping when exchange_id is not 1 or 2;
`droppedStale` is the early-tick filter (lines 409-413);
`droppedUnsubscribed` is the ownership filter (lines 415-418). -/
inductive TickResult
  | keyError
  | droppedStale
  | droppedUnsubscribed
  | published (t : TickPub)
deriving DecidableEq, Repr

def isPublished : TickResult → Bool
  | .published _ => true
  | _ => false

/-- XtpMdApi.__is_sub_symbol: linear scan comparing the symbol component
only (the exchange component of each registry entry is ignored). -/
def is_sub_symbol (l : List (String × Exchange)) (symbol : String) : Bool :=
  l.any (fun sub_req => sub_req.1 == symbol)

/-- Lines 424-445: build the TickData from the raw fields. -/
def buildTick (gateway_name : String) (d : RawTick) (exchange : Exchange) : TickPub :=
  { symbol := d.ticker
    exchange := exchange
    datetime := d.data_time
    volume := d.qty
    turnover := d.turnover
    last_price := d.last_price
    limit_up := d.upper_limit_price
    limit_down := d.lower_limit_price
    open_price := d.open_price
    high_price := d.high_price
    low_price := d.low_price
    pre_close := d.pre_close_price
    bid_price := d.bid.take 5
    ask_price := d.ask.take 5
    bid_volume := d.bid_qty.take 5
    ask_volume := d.ask_qty.take 5
    name := gateway_name }

/-- Lines 447-470: when the contract is cached, round every price field to
the contract's price tick and attach the contract's display name. -/
def applyContract (t : TickPub) : Option ContractData → TickPub
  | some contract =>
      let pt := contract.pricetick
      { t with
        last_price := round_to t.last_price pt
        limit_up := round_to t.limit_up pt
        limit_down := round_to t.limit_down pt
        open_price := round_to t.open_price pt
        high_price := round_to t.high_price pt
        low_price := round_to t.low_price pt
        pre_close := round_to t.pre_close pt
        bid_price := t.bid_price.map (fun p => round_to p pt)
        ask_price := t.ask_price.map (fun p => round_to p pt)
        name := contract.name }
  | none => t

/-- XtpMdApi.onDepthMarketData (lines 399-474).  `contracts` is the
process-wide symbol_contract_map keyed by vt_symbol.  Log calls are
omitted (they carry no state).  On `published` the last-seen-time table
is updated; every other outcome leaves the state unchanged. -/
def onDepthMarketData (st : MdState) (contracts : List (String × ContractData))
    (d : RawTick) : MdState × TickResult :=
  match EXCHANGE_XTP2VT d.exchange_id with
  | none => (st, .keyError)
  | some exchange =>
    let vt_symbol := d.ticker ++ "." ++ exchangeValue exchange
    let stale :=
      match alistGet st.last_tick_time vt_symbol with
      | some last_tick_time => datetime_a_le_b d.data_time last_tick_time
      | none => false
    if stale then (st, .droppedStale)
    else if !st.subscribe_all && !is_sub_symbol st.subscribe_request_list d.ticker then
      (st, .droppedUnsubscribed)
    else
      let tick := applyContract (buildTick "XTP" d exchange) (alistGet contracts vt_symbol)
      ({ st with last_tick_time := alistSet st.last_tick_time vt_symbol d.data_time },
       .published tick)

/-- XtpMdApi.subscribe (lines 577-585): only while logged in, issue the
vendor subscribe and record the (symbol, exchange) pair in the registry. -/
def subscribe (st : MdState) (symbol : String) (exchange : Exchange) :
    MdState × List MdCall :=
  if st.login_status then
    ({ st with subscribe_request_list := setAdd st.subscribe_request_list (symbol, exchange) },
     [.subscribeMarketData symbol 1 (EXCHANGE_VT2XTP exchange)])
  else (st, [])

/-- XtpMdApi.subscribe_all_tickets (lines 587-593). -/
def subscribe_all_tickets (st : MdState) : MdState × List MdCall :=
  if st.login_status then
    ({ st with subscribe_all := true }, [.subscribeAllMarketData])
  else (st, [])

/-- XtpMdApi.re_subscribe (lines 617-652): for a non-empty registry while
logged in, one full pass of unsubscribes followed by one full pass of
subscribes.  State is not modified. -/
def re_subscribe (st : MdState) : List MdCall :=
  if st.subscribe_request_list.isEmpty then []
  else if !st.login_status then []
  else
    (st.subscribe_request_list.map
      (fun req => MdCall.unSubscribeMarketData req.1 1 (EXCHANGE_VT2XTP req.2)))
    ++ (st.subscribe_request_list.map
      (fun req => MdCall.subscribeMarketData req.1 1 (EXCHANGE_VT2XTP req.2)))

/-- XtpMdApi.login_server (lines 548-570).  `loginRet` is the return code
of the vendor login call (0 = success).  On success: statuses set, contract
query for both exchanges, vendor init, resubscription; then write_log. -/
def login_server (st : MdState) (loginRet : Nat) : MdState × List MdOut :=
  let loginCall :=
    MdOut.vendor (.login st.server_ip st.server_port st.userid st.password
      st.protocol st.local_ip)
  if loginRet == 0 then
    let st1 := { st with connect_status := true, login_status := true }
    (st1,
      [loginCall, .vendor (.queryAllTickers 1), .vendor (.queryAllTickers 2),
        .vendor .initApi]
      ++ (re_subscribe st1).map .vendor ++ [.writeLog])
  else (st, [loginCall, .vendor .getApiLastError, .writeLog])

/-- Python str.lower, character by character (the configuration values
compared by onDisconnected are ASCII). -/
def strLower (s : String) : String :=
  String.mk (s.data.map Char.toLower)

/-- The auto-reconnect gate in XtpMdApi.onDisconnected (lines 366-372):
blocked iff the registry is non-empty and the re_auto_login_xtp config is
present with a value whose lower-casing differs from "y".  `policy` is the
config_value of sys_config_repository.get_config_value("re_auto_login_xtp")
when a config row exists. -/
def reconnectBlocked (st : MdState) (policy : Option String) : Bool :=
  decide (st.subscribe_request_list.length > 0) &&
    (match policy with
     | some v => !(strLower "Y" == strLower v)
     | none => false)

/-- XtpMdApi.onDisconnected (lines 361-376). -/
def onDisconnected (st : MdState) (policy : Option String) (loginRet : Nat) :
    MdState × List MdOut :=
  let st0 := { st with connect_status := false, login_status := false }
  if reconnectBlocked st0 policy then (st0, [.writeLog, .logInfo])
  else
    let st1 := { st0 with re_connect_times := st0.re_connect_times + 1 }
    let r := login_server st1 loginRet
    (r.1, [MdOut.writeLog, .sleepSecs 3] ++ r.2)

/-- Arguments of XtpMdApi.connect. -/
structure MdConnectArgs where
  userid : String
  password : String
  client_id : Nat
  server_ip : String
  server_port : Nat
  quote_protocol : String
  log_level : Nat
  local_ip : String
deriving DecidableEq, Repr

/-- XtpMdApi.connect (lines 506-546).  The connection parameters are
assigned to the session fields BEFORE the connect_status check; the
already-connected branch only logs.  Returns none when
PROTOCOL_VT2XTP[quote_protocol] raises KeyError. -/
def mdConnect (st : MdState) (a : MdConnectArgs) (loginRet : Nat) :
    Option (MdState × List MdOut) :=
  match PROTOCOL_VT2XTP a.quote_protocol with
  | none => none
  | some proto =>
    let st0 := { st with
      userid := a.userid
      password := a.password
      client_id := a.client_id
      server_ip := a.server_ip
      server_port := a.server_port
      protocol := proto
      local_ip := a.local_ip }
    if !st0.connect_status then
      let pre :=
        [MdOut.vendor (.createQuoteApi a.client_id a.log_level),
          .vendor (.setHeartBeatInterval 30)]
        ++ (if a.quote_protocol == "UDP" then [MdOut.vendor (.setUDPBufferSize 1024)] else [])
      let r := login_server st0 loginRet
      some (r.1, pre ++ r.2)
    else some (st0, [.writeLog])

/-- A cached OrderData (the fields XtpTdApi reads and writes). -/
structure OrderData where
  symbol : String
  exchange : Exchange
  orderid : String
  type : OrderType
  direction : Direction
  offset : Offset
  price : ℚ
  volume : Nat
  traded : Nat
  status : Status
  datetime : Option Nat := none
deriving DecidableEq, Repr

/-- A published TradeData. -/
structure TradeData where
  symbol : String
  exchange : Exchange
  orderid : String
  tradeid : String
  direction : Direction
  offset : Offset
  price : ℚ
  volume : Nat
  datetime : Nat
deriving DecidableEq, Repr

/-- A published PositionData (the fields the credit-debt path uses;
volume defaults to 0 at construction). -/
structure PositionData where
  symbol : String
  exchange : Exchange
  direction : Direction
  volume : Nat := 0
deriving DecidableEq, Repr

/-- Mutable fields of XtpTdApi. -/
structure TdState where
  userid : String := ""
  password : String := ""
  client_id : Nat := 0
  server_ip : String := ""
  server_port : Nat := 0
  software_key : String := ""
  session_id : Nat := 0
  reqid : Nat := 0
  protocol : Nat := 0
  local_ip : String := "127.0.0.1"
  margin_trading : Bool := false
  option_trading : Bool := false
  connect_status : Bool := false
  login_status : Bool := false
  short_positions : List (String × PositionData) := []
  orders : List (String × OrderData) := []
deriving DecidableEq, Repr

/-- Vendor SDK calls made by XtpTdApi. -/
inductive TdCall
  | createTraderApi (client_id : Nat) (log_level : Nat)
  | setSoftwareKey (key : String)
  | subscribePublicTopic (n : Nat)
  | login (ip : String) (port : Nat) (userid : String) (password : String)
      (protocol : Nat)
  | getApiLastError
  | initApi
  | initContractData
  | queryAsset (session : Nat) (reqid : Nat)
  | queryPositionReq (session : Nat) (reqid : Nat)
  | queryCreditFundInfo (session : Nat) (reqid : Nat)
  | queryCreditDebtInfoReq (session : Nat) (reqid : Nat)
  | queryOptionAuctionInfo (session : Nat) (reqid : Nat)
deriving DecidableEq, Repr

/-- Outputs of an XtpTdApi handler. -/
inductive TdOut
  | vendor (c : TdCall)
  | on_order (o : OrderData)
  | on_trade (t : TradeData)
  | on_position (p : PositionData)
  | write_log
  | write_error
deriving DecidableEq, Repr

/-- A Python exception escaping a handler. -/
inductive PyErr
  | keyError
  | unboundLocalError
deriving DecidableEq, Repr

/-- Result of one XtpTdApi handler invocation: the state after it, the
outputs it emitted (in order), and the exception that escaped, if any
(outputs emitted before the raise are kept in `out`). -/
structure TdRes where
  st : TdState
  out : List TdOut
  err : Option PyErr := none
deriving DecidableEq, Repr

/-- XtpTdApi.query_account (lines 1109-1115). -/
def query_account (st : TdState) : TdState × List TdOut :=
  if !st.connect_status then (st, [])
  else
    ({ st with reqid := st.reqid + 1 },
     [.vendor (.queryAsset st.session_id (st.reqid + 1))])

/-- XtpTdApi.query_credit_asset (lines 1129-1136). -/
def query_credit_asset (st : TdState) : TdState × List TdOut :=
  if !st.connect_status then (st, [])
  else
    ({ st with reqid := st.reqid + 1 },
     [.vendor (.queryCreditFundInfo st.session_id (st.reqid + 1))])

/-- The payload of an onOrderEvent callback. -/
structure OrderEventData where
  ticker : String
  side : Nat
  position_effect : Nat
  price_type : Nat
  market : Nat
  order_xtp_id : Nat
  price : ℚ
  quantity : Nat
  qty_traded : Nat
  order_status : Nat
  insert_time : Nat
deriving DecidableEq, Repr

/-- Lines 712-724: decode direction/offset/order type; option instruments
(8-character symbols) use one code table, equities another, and the STAR
board (688-prefixed symbols) a third order-type table.  `none` models a
KeyError escaping from an indexed table (the .get lookups default to
MARKET and cannot raise). -/
def decodeOrderFields (symbol : String) (side position_effect price_type : Nat) :
    Option (Direction × Offset × OrderType) :=
  if symbol.length == 8 then
    match DIRECTION_OPTION_XTP2VT side, OFFSET_XTP2VT position_effect with
    | some direction, some offset =>
        some (direction, offset, (OPTION_ORDERTYPE_XTP2VT price_type).getD .MARKET)
    | _, _ => none
  else
    match DIRECTION_STOCK_XTP2VT side with
    | some d =>
        let tmap := if symbol.startsWith "688" then STAR_ORDERTYPE_XTP2VT
          else EQUITY_ORDERTYPE_XTP2VT
        some (d.1, d.2, (tmap price_type).getD .MARKET)
    | none => none

/-- XtpTdApi.onOrderEvent (lines 706-752).  `error_id` is
error["error_id"]; a non-zero value is reported but does not block the
update.  An absent order id creates the OrderRecord from the event;
a present one has only `traded` and `status` overwritten.  The first-seen
insertion timestamp is set only when `datetime` is still unset. -/
def onOrderEvent (st : TdState) (d : OrderEventData) (error_id : Nat) : TdRes :=
  let errOut := if error_id ≠ 0 then [TdOut.write_error, TdOut.write_log] else []
  match decodeOrderFields d.ticker d.side d.position_effect d.price_type with
  | none => { st := st, out := errOut, err := some .keyError }
  | some dec =>
    let orderid := toString d.order_xtp_id
    match alistGet st.orders orderid with
    | none =>
      match MARKET_XTP2VT d.market, STATUS_XTP2VT d.order_status with
      | some exchange, some status =>
        let order : OrderData :=
          { symbol := d.ticker
            exchange := exchange
            orderid := orderid
            type := dec.2.2
            direction := dec.1
            offset := dec.2.1
            price := d.price
            volume := d.quantity
            traded := d.qty_traded
            status := status
            datetime := none }
        let order :=
          if order.datetime.isNone then { order with datetime := some d.insert_time }
          else order
        { st := { st with orders := alistSet st.orders orderid order }
          out := errOut ++ [.on_order order] }
      | _, _ => { st := st, out := errOut, err := some .keyError }
    | some order0 =>
      match STATUS_XTP2VT d.order_status with
      | some status =>
        let order1 := { order0 with traded := d.qty_traded, status := status }
        let order2 :=
          if order1.datetime.isNone then { order1 with datetime := some d.insert_time }
          else order1
        { st := { st with orders := alistSet st.orders orderid order2 }
          out := errOut ++ [.on_order order2] }
      | none => { st := st, out := errOut, err := some .keyError }

/-- The payload of an onTradeEvent callback. -/
structure TradeEventData where
  ticker : String
  side : Nat
  position_effect : Nat
  market : Nat
  order_xtp_id : Nat
  exec_id : Nat
  price : ℚ
  quantity : Nat
  trade_time : Nat
deriving DecidableEq, Repr

/-- Lines 758-763: decode direction/offset for a trade. -/
def decodeTradeFields (symbol : String) (side position_effect : Nat) :
    Option (Direction × Offset) :=
  if symbol.length == 8 then
    match DIRECTION_OPTION_XTP2VT side, OFFSET_XTP2VT position_effect with
    | some direction, some offset => some (direction, offset)
    | _, _ => none
  else DIRECTION_STOCK_XTP2VT side

/-- Lines 784-789: merge one fill into a cached order: increment traded
and recompute the status as PARTTRADED below the requested volume and
ALLTRADED at or above it. -/
def mergeFill (o : OrderData) (qty : Nat) : OrderData :=
  { o with
    traded := o.traded + qty
    status := if o.traded + qty < o.volume then Status.PARTTRADED
      else Status.ALLTRADED }

/-- XtpTdApi.onTradeEvent (lines 754-798).  On a matching order: increment
`traded`, recompute the status, publish the updated order, publish the
trade, and trigger the account and credit refresh when the recomputed
status is PARTTRADED or ALLTRADED.  On a missing order: write_log runs,
`on_trade` at line 794 STILL runs, and then line 795 reads the unassigned
local `order`, so an UnboundLocalError escapes. -/
def onTradeEvent (st : TdState) (d : TradeEventData) : TdRes :=
  match decodeTradeFields d.ticker d.side d.position_effect with
  | none => { st := st, out := [], err := some .keyError }
  | some dec =>
    match MARKET_XTP2VT d.market with
    | none => { st := st, out := [], err := some .keyError }
    | some exchange =>
      let trade : TradeData :=
        { symbol := d.ticker
          exchange := exchange
          orderid := toString d.order_xtp_id
          tradeid := toString d.exec_id
          direction := dec.1
          offset := dec.2
          price := d.price
          volume := d.quantity
          datetime := d.trade_time }
      match alistGet st.orders trade.orderid with
      | some order0 =>
        let order1 := mergeFill order0 trade.volume
        let st1 := { st with orders := alistSet st.orders trade.orderid order1 }
        let refresh :=
          if order1.status == .PARTTRADED || order1.status == .ALLTRADED then
            let r1 := query_account st1
            let r2 := query_credit_asset r1.1
            (r2.1, r1.2 ++ r2.2)
          else (st1, [])
        { st := refresh.1
          out := [.on_order order1, .on_trade trade] ++ refresh.2 }
      | none =>
        { st := st
          out := [.write_log, .on_trade trade]
          err := some .unboundLocalError }

/-- The events the order/trade reconciler consumes for one session. -/
inductive TdEvent
  | orderEvent (d : OrderEventData) (error_id : Nat)
  | tradeEvent (d : TradeEventData)
deriving DecidableEq, Repr

def applyEvent (st : TdState) : TdEvent → TdRes
  | .orderEvent d e => onOrderEvent st d e
  | .tradeEvent d => onTradeEvent st d

/-- Run a sequence of reconciler events; stop at the first escaped
exception. -/
def applyEvents (st : TdState) : List TdEvent → Except PyErr TdState
  | [] => .ok st
  | ev :: rest =>
    match (applyEvent st ev).err with
    | some e => .error e
    | none => applyEvents (applyEvent st ev).st rest

/-- An event "fits" the current order cache: an order-update reports a
traded quantity within the (created or existing) order's requested volume,
and a trade-fill lands on a known order and fits within its remaining
quantity. -/
def eventFits (st : TdState) : TdEvent → Bool
  | .orderEvent d _ =>
      match alistGet st.orders (toString d.order_xtp_id) with
      | none => d.qty_traded ≤ d.quantity
      | some o => d.qty_traded ≤ o.volume
  | .tradeEvent d =>
      match alistGet st.orders (toString d.order_xtp_id) with
      | none => false
      | some o => o.traded + d.quantity ≤ o.volume

/-- Every event of the sequence fits the cache at the moment it is
applied, and none of them raises. -/
def fitsFrom (st : TdState) : List TdEvent → Bool
  | [] => true
  | ev :: rest =>
    eventFits st ev &&
      ((applyEvent st ev).err.isNone && fitsFrom (applyEvent st ev).st rest)

/-- Every cached order has `traded ≤ volume`. -/
def ordersBounded (st : TdState) : Prop :=
  ∀ p ∈ st.orders, (p.2).traded ≤ (p.2).volume

instance (st : TdState) : Decidable (ordersBounded st) :=
  inferInstanceAs (Decidable (∀ p ∈ st.orders, (p.2).traded ≤ (p.2).volume))

/-- One page of an onQueryCreditDebtInfo response. -/
structure DebtData where
  debt_type : Nat
  ticker : String
  market : Nat
  remain_qty : Nat
deriving DecidableEq, Repr

/-- Lines 952-962: the accumulator update for one debt_type-1 row: fetch
the per-symbol running position (creating a fresh Short position the
first time the symbol is seen) and add the page's remaining quantity. -/
def debtUpsert (acc : List (String × PositionData)) (ticker : String)
    (exch : Exchange) (remain : Nat) : List (String × PositionData) :=
  let position := (alistGet acc ticker).getD
    { symbol := ticker, exchange := exch, direction := Direction.SHORT }
  alistSet acc ticker { position with volume := position.volume + remain }

/-- Lines 948-962: accumulate one debt page into short_positions.
Returns none when MARKET_XTP2VT[market] raises KeyError. -/
def debtAccumulate (st : TdState) (d : DebtData) : Option TdState :=
  if d.debt_type == 1 then
    match MARKET_XTP2VT d.market with
    | none => none
    | some exchange =>
      some { st with
        short_positions :=
          debtUpsert st.short_positions d.ticker exchange d.remain_qty }
  else some st

/-- XtpTdApi.onQueryCreditDebtInfo (lines 937-968). -/
def onQueryCreditDebtInfo (st : TdState) (d : DebtData) (last : Bool) : TdRes :=
  match debtAccumulate st d with
  | none => { st := st, out := [], err := some .keyError }
  | some st1 =>
    if last then
      { st := { st1 with short_positions := [] }
        out := st1.short_positions.map (fun p => TdOut.on_position p.2) }
    else { st := st1, out := [] }

/-- Run a full paginated credit-debt response, page by page, collecting
the outputs of each page. -/
def processDebtPages (st : TdState) :
    List (DebtData × Bool) → Except PyErr (TdState × List (List TdOut))
  | [] => .ok (st, [])
  | (d, last) :: rest =>
    let r := onQueryCreditDebtInfo st d last
    match r.err with
    | some e => .error e
    | none =>
      match processDebtPages r.st rest with
      | .ok (st', outs) => .ok (st', r.out :: outs)
      | .error e => .error e

/-- Total remaining-debt quantity reported for symbol `s` by the
debt_type-1 pages of a response. -/
def debtSum (l : List DebtData) (s : String) : Nat :=
  ((l.filter (fun d => d.debt_type == 1 && d.ticker == s)).map
    (fun d => d.remain_qty)).sum

/-- Whether some debt_type-1 page of the response mentions symbol `s`. -/
def hasDebt (l : List DebtData) (s : String) : Bool :=
  l.any (fun d => d.debt_type == 1 && d.ticker == s)

/-- Invariant of the short-position accumulator after processing the
pages `processed`: keys are unique, every entry is a Short position for
its key whose volume is the running debt total, and a key is present
exactly when some debt page mentioned it. -/
def AccOk (processed : List DebtData) (acc : List (String × PositionData)) : Prop :=
  (acc.map Prod.fst).Nodup ∧
  (∀ p ∈ acc, (p.2).symbol = p.1 ∧ (p.2).direction = Direction.SHORT ∧
    (p.2).volume = debtSum processed p.1) ∧
  (∀ s : String, (alistGet acc s).isSome = hasDebt processed s)

/-- Arguments of XtpTdApi.connect. -/
structure TdConnectArgs where
  userid : String
  password : String
  client_id : Nat
  server_ip : String
  server_port : Nat
  software_key : String
  log_level : Nat
  local_ip : String
deriving DecidableEq, Repr

/-- XtpTdApi.login_server (lines 1002-1024).  `n` is the session id the
vendor login returns (non-zero = success for the trading feed). -/
def td_login_server (st : TdState) (n : Nat) : TdState × List TdOut :=
  let loginCall :=
    TdOut.vendor (.login st.server_ip st.server_port st.userid st.password st.protocol)
  let step :
      TdState × List TdOut :=
    if n ≠ 0 then
      ({ st with session_id := n, connect_status := true, login_status := true },
       [TdOut.vendor .initApi, TdOut.vendor .initContractData])
    else (st, [TdOut.vendor .getApiLastError])
  let st2 := { step.1 with reqid := step.1.reqid + 1 }
  (st2,
    [loginCall] ++ step.2
      ++ [.write_log, .vendor (.queryOptionAuctionInfo st2.session_id st2.reqid)])

/-- XtpTdApi.connect (lines 970-1000).  As on the market-data side, the
connection parameters are assigned BEFORE the connect_status check; the
already-connected branch only logs. -/
def tdConnect (st : TdState) (a : TdConnectArgs) (loginRet : Nat) :
    TdState × List TdOut :=
  let st0 := { st with
    userid := a.userid
    password := a.password
    client_id := a.client_id
    server_ip := a.server_ip
    server_port := a.server_port
    software_key := a.software_key
    protocol := 1
    local_ip := a.local_ip }
  if !st0.connect_status then
    let pre :=
      [TdOut.vendor (.createTraderApi a.client_id a.log_level),
        .vendor (.setSoftwareKey a.software_key), .vendor (.subscribePublicTopic 0)]
    let r := td_login_server st0 loginRet
    (r.1, pre ++ r.2)
  else (st0, [.write_log])

/-- Is this output one of the two account/credit refresh calls that a
fill triggers? -/
def isAccountRefreshCall : TdOut → Bool
  | .vendor (.queryAsset _ _) => true
  | .vendor (.queryCreditFundInfo _ _) => true
  | _ => false

def isUnsubCall : MdCall → Bool
  | .unSubscribeMarketData _ _ _ => true
  | _ => false

def isSubCall : MdCall → Bool
  | .subscribeMarketData _ _ _ => true
  | _ => false

/-! Concrete instances used by the closed theorems below. -/

/-- A cancelled order for 100 shares, no fills yet. -/
def C1order : OrderData :=
  { symbol := "600000"
    exchange := .SSE
    orderid := "1"
    type := .LIMIT
    direction := .LONG
    offset := .NONE
    price := 10
    volume := 100
    traded := 0
    status := .CANCELLED
    datetime := some 20240101093000000 }

def C1st : TdState := { orders := [("1", C1order)] }

/-- A 40-share fill for order 1. -/
def C1fill1 : TradeEventData :=
  { ticker := "600000"
    side := 1
    position_effect := 0
    market := 2
    order_xtp_id := 1
    exec_id := 11
    price := 10
    quantity := 40
    trade_time := 1 }

/-- A further 100-share fill for order 1. -/
def C1fill2 : TradeEventData :=
  { C1fill1 with exec_id := 12, quantity := 100, trade_time := 2 }

/-- An open order for 100 shares. -/
def W1order : OrderData :=
  { C1order with status := .NOTTRADED }

def W1st : TdState := { orders := [("1", W1order)] }

def W1fill : TradeEventData :=
  { C1fill1 with quantity := 30 }

def W1evs : List TdEvent := [TdEvent.tradeEvent W1fill]

def W1res : TdState :=
  { orders := [("1", { W1order with traded := 30, status := Status.PARTTRADED })] }

/-- A fill whose order id (9) is not in the (empty) order cache. -/
def C2trade : TradeEventData :=
  { ticker := "600000"
    side := 1
    position_effect := 0
    market := 2
    order_xtp_id := 9
    exec_id := 7
    price := 5
    quantity := 10
    trade_time := 3 }

/-- The TradeData that onTradeEvent builds from C2trade. -/
def C2tradePub : TradeData :=
  { symbol := "600000"
    exchange := .SSE
    orderid := "9"
    tradeid := "7"
    direction := .LONG
    offset := .NONE
    price := 5
    volume := 10
    datetime := 3 }

/-- A session that has already accepted a tick at time 100 for 600000.SSE. -/
def C3st : MdState :=
  { last_tick_time := [("600000.SSE", 100)], subscribe_all := true }

/-- A tick for 600000.SSE whose timestamp equals the last accepted one. -/
def C3tick : RawTick :=
  { data_time := 100
    ticker := "600000"
    exchange_id := 1
    qty := 0
    turnover := 0
    last_price := 0
    upper_limit_price := 0
    lower_limit_price := 0
    open_price := 0
    high_price := 0
    low_price := 0
    pre_close_price := 0
    bid := []
    ask := []
    bid_qty := []
    ask_qty := [] }

/-- A registry holding only the pair (600000, SSE). -/
def C4st : MdState :=
  { subscribe_request_list := [("600000", Exchange.SSE)] }

/-- A tick for symbol 600000 on SZSE (exchange_id 2): its
(symbol, exchange) pair is absent from C4st's registry. -/
def C4tick : RawTick :=
  { C3tick with data_time := 5, exchange_id := 2 }

/-- A tick for symbol 600000 on SSE (exchange_id 1), matching C4st's
registry entry. -/
def W4tick : RawTick :=
  { C3tick with data_time := 5, exchange_id := 1 }

/-- A connected session holding an order for 1000 shares (spec scenario). -/
def W5order : OrderData :=
  { C1order with volume := 1000, status := .NOTTRADED }

def W5st : TdState := { connect_status := true, orders := [("1", W5order)] }

/-- A 300-share fill for that order. -/
def W5fill : TradeEventData :=
  { C1fill1 with exec_id := 2, quantity := 300, trade_time := 4 }

/-- A session with a non-empty registry and stored connection parameters. -/
def W6st : MdState :=
  { userid := "u1"
    password := "p1"
    client_id := 3
    server_ip := "1.2.3.4"
    server_port := 6002
    protocol := 1
    connect_status := true
    login_status := true
    subscribe_request_list := [("600000", Exchange.SSE)]
    re_connect_times := 4
    local_ip := "10.0.0.9" }

/-- A logged-in session tracking two subscriptions. -/
def W7st : MdState :=
  { login_status := true
    subscribe_request_list := [("600000", Exchange.SSE), ("000001", Exchange.SZSE)] }

/-- An already-connected market-data session. -/
def C8st : MdState := { connect_status := true, userid := "olduser" }

def C8args : MdConnectArgs :=
  { userid := "newuser"
    password := "pw"
    client_id := 7
    server_ip := "10.0.0.1"
    server_port := 6002
    quote_protocol := "TCP"
    log_level := 3
    local_ip := "10.0.0.2" }

/-- The session C8st after the rejected connect call: every connection
parameter has been overwritten. -/
def C8stAfter : MdState := { C8st with
  userid := "newuser"
  password := "pw"
  client_id := 7
  server_ip := "10.0.0.1"
  server_port := 6002
  protocol := 1
  local_ip := "10.0.0.2" }

/-- An already-connected trading session (for the amended-claim witness). -/
def W8tdst : TdState := { connect_status := true, userid := "oldtd" }

def W8tdargs : TdConnectArgs :=
  { userid := "newtd"
    password := "pw2"
    client_id := 8
    server_ip := "10.0.0.3"
    server_port := 6003
    software_key := "key"
    log_level := 2
    local_ip := "10.0.0.4" }

/-- Spec scenario: symbol 000001 reports remainder 200 on page 1 and 50 on
the final page. -/
def W9page1 : DebtData :=
  { debt_type := 1, ticker := "000001", market := 1, remain_qty := 200 }

def W9last : DebtData :=
  { debt_type := 1, ticker := "000001", market := 1, remain_qty := 50 }

def W9pages : List DebtData := [W9page1]

/-- A market-data session that is not logged in. -/
def W10st : MdState := { connect_status := true }

/-! Association-list lemmas (Python dict semantics). -/

theorem alistGet_alistSet {α : Type} (l : List (String × α)) (k k' : String) (v : α) :
    alistGet (alistSet l k v) k' = if k = k' then some v else alistGet l k' := by
  induction l with
  | nil => simp [alistGet, alistSet]
  | cons p rest ih =>
    unfold alistSet
    by_cases hpk : p.1 = k
    · rw [if_pos hpk]
      unfold alistGet
      by_cases hkk : k = k'
      · rw [if_pos hkk, if_pos hkk]
      · rw [if_neg hkk, if_neg hkk, if_neg (fun h => hkk (hpk ▸ h))]
    · rw [if_neg hpk]
      unfold alistGet
      by_cases hpk' : p.1 = k'
      · rw [if_pos hpk', if_neg (fun h : k = k' => hpk (hpk'.trans h.symm)),
          if_pos hpk']
      · rw [if_neg hpk', ih, if_neg hpk']

theorem mem_alistSet {α : Type} (l : List (String × α)) (k : String) (v : α)
    (p : String × α) (hp : p ∈ alistSet l k v) : p = (k, v) ∨ p ∈ l := by
  induction l with
  | nil => simpa [alistSet] using hp
  | cons q rest ih =>
    unfold alistSet at hp
    by_cases hq : q.1 = k
    · rw [if_pos hq] at hp
      rcases List.mem_cons.mp hp with h | h
      · exact Or.inl h
      · exact Or.inr (List.mem_cons_of_mem _ h)
    · rw [if_neg hq] at hp
      rcases List.mem_cons.mp hp with h | h
      · exact Or.inr (h ▸ List.mem_cons_self _ _)
      · rcases ih h with h' | h'
        · exact Or.inl h'
        · exact Or.inr (List.mem_cons_of_mem _ h')

theorem mem_keys_alistSet {α : Type} (l : List (String × α)) (k : String) (v : α)
    (a : String) :
    a ∈ (alistSet l k v).map Prod.fst ↔ a ∈ l.map Prod.fst ∨ a = k := by
  induction l with
  | nil => simp [alistSet]
  | cons q rest ih =>
    unfold alistSet
    by_cases hq : q.1 = k
    · rw [if_pos hq]
      simp only [List.map_cons, List.mem_cons, hq]
      tauto
    · rw [if_neg hq]
      simp only [List.map_cons, List.mem_cons, ih]
      tauto

theorem nodup_keys_alistSet {α : Type} (l : List (String × α)) (k : String) (v : α)
    (h : (l.map Prod.fst).Nodup) : ((alistSet l k v).map Prod.fst).Nodup := by
  induction l with
  | nil => simp [alistSet]
  | cons q rest ih =>
    rw [List.map_cons, List.nodup_cons] at h
    by_cases hq : q.1 = k
    · subst hq
      simpa [alistSet, List.nodup_cons] using h
    · rw [alistSet, if_neg hq, List.map_cons, List.nodup_cons]
      refine ⟨?_, ih h.2⟩
      rw [mem_keys_alistSet]
      rintro (hmem | rfl)
      · exact h.1 hmem
      · exact hq rfl

theorem mem_alistSet_nodup {α : Type} (l : List (String × α)) (k : String) (v : α)
    (hnd : (l.map Prod.fst).Nodup) (p : String × α) (hp : p ∈ alistSet l k v) :
    p = (k, v) ∨ (p ∈ l ∧ p.1 ≠ k) := by
  induction l with
  | nil => simpa [alistSet] using hp
  | cons q rest ih =>
    rw [List.map_cons, List.nodup_cons] at hnd
    by_cases hq : q.1 = k
    · rw [alistSet, if_pos hq] at hp
      rcases List.mem_cons.mp hp with h | h
      · exact Or.inl h
      · refine Or.inr ⟨List.mem_cons_of_mem _ h, ?_⟩
        intro hpk
        exact hnd.1 (hq ▸ hpk ▸ List.mem_map_of_mem Prod.fst h)
    · rw [alistSet, if_neg hq] at hp
      rcases List.mem_cons.mp hp with h | h
      · exact Or.inr ⟨h ▸ List.mem_cons_self _ _, h ▸ hq⟩
      · rcases ih hnd.2 h with h' | h'
        · exact Or.inl h'
        · exact Or.inr ⟨List.mem_cons_of_mem _ h'.1, h'.2⟩

theorem alistGet_some_mem {α : Type} (l : List (String × α)) (k : String) (v : α)
    (h : alistGet l k = some v) : (k, v) ∈ l := by
  induction l with
  | nil => simp [alistGet] at h
  | cons p rest ih =>
    unfold alistGet at h
    by_cases hk : p.1 = k
    · rw [if_pos hk] at h
      injection h with h
      have hp : p = (k, v) := Prod.ext hk h
      exact hp ▸ List.mem_cons_self _ _
    · rw [if_neg hk] at h
      exact List.mem_cons_of_mem _ (ih h)

/-! General helper lemmas. -/

/-- In a concatenation whose first part has no q-elements and whose second
part has no p-elements, every p-index precedes every q-index. -/
theorem append_phase_lt {α : Type} (A B : List α) (p q : α → Bool)
    (hA : ∀ a ∈ A, q a = false) (hB : ∀ b ∈ B, p b = false)
    (i j : Nat) (ci cj : α)
    (hci : (A ++ B)[i]? = some ci) (hcj : (A ++ B)[j]? = some cj)
    (hpi : p ci = true) (hqj : q cj = true) : i < j := by
  have hiA : i < A.length := by
    by_contra hge
    push_neg at hge
    rw [List.getElem?_append_right hge] at hci
    have hmem : ci ∈ B := List.getElem?_mem hci
    rw [hB _ hmem] at hpi
    exact absurd hpi (by simp)
  have hjA : A.length ≤ j := by
    by_contra hlt
    push_neg at hlt
    rw [List.getElem?_append_left hlt] at hcj
    have hmem : cj ∈ A := List.getElem?_mem hcj
    rw [hA _ hmem] at hqj
    exact absurd hqj (by simp)
  omega

/-- With a non-empty registry and a live login, re_subscribe is exactly
the unsubscribe pass followed by the subscribe pass. -/
theorem re_subscribe_eq (st : MdState) (h1 : st.login_status = true)
    (h2 : st.subscribe_request_list ≠ []) :
    re_subscribe st =
      (st.subscribe_request_list.map
        (fun req => MdCall.unSubscribeMarketData req.1 1 (EXCHANGE_VT2XTP req.2)))
      ++ (st.subscribe_request_list.map
        (fun req => MdCall.subscribeMarketData req.1 1 (EXCHANGE_VT2XTP req.2))) := by
  unfold re_subscribe
  rw [if_neg (by simp [List.isEmpty_iff, h2]), if_neg (by simp [h1])]

/-- login_server keeps the reconnect counter and always starts with the
vendor login call built from the stored connection parameters. -/
theorem login_server_shape (st : MdState) (r : Nat) :
    (login_server st r).1.re_connect_times = st.re_connect_times ∧
    ∃ rest, (login_server st r).2 =
      MdOut.vendor (MdCall.login st.server_ip st.server_port st.userid st.password
        st.protocol st.local_ip) :: rest := by
  unfold login_server
  by_cases hr : (r == 0) = true
  · rw [if_pos hr]
    exact ⟨rfl, _, rfl⟩
  · rw [if_neg hr]
    exact ⟨rfl, _, rfl⟩

/-! Claim theorems. -/

/-- C10: calling subscribe while the market-data session is not logged in
is a complete silent no-op: no vendor subscribe call is issued and the
(symbol, exchange) pair is not added to the Subscription Registry. -/
theorem subscribe_not_logged_in_noop (st : MdState) (symbol : String)
    (exchange : Exchange) (h : st.login_status = false) :
    subscribe st symbol exchange = (st, []) := by
  unfold subscribe
  rw [h]
  simp

theorem subscribe_not_logged_in_noop_witness :
    W10st.login_status = false ∧
    subscribe W10st "600000" Exchange.SSE = (W10st, []) :=
  ⟨rfl, subscribe_not_logged_in_noop W10st "600000" Exchange.SSE rfl⟩

/-- C8 counterexample: a connect call on an already-connected session is
rejected with the already-connected log and makes no vendor call, but it
still overwrites the stored connection parameters (the assignments in
XtpMdApi.connect precede the connect_status check), so the claimed
"no field of the session object is modified" is false. -/
theorem connect_rejected_overwrites_params :
    C8st.connect_status = true ∧
    mdConnect C8st C8args 0 = some (C8stAfter, [MdOut.writeLog]) ∧
    C8stAfter.userid ≠ C8st.userid := by
  decide

/-- C8 (amended): connect on a session that is not Disconnected is
rejected with the already-connected log and no vendor API call is made,
but the stored connection parameters (userid, password, client id, server
ip and port, protocol, local ip — plus software key on the trading side)
are overwritten with the new arguments; no other field changes. -/
theorem connect_rejected_behavior (mst : MdState) (ma : MdConnectArgs) (r1 : Nat)
    (tst : TdState) (ta : TdConnectArgs) (r2 : Nat) (proto : Nat)
    (hp : PROTOCOL_VT2XTP ma.quote_protocol = some proto)
    (hmc : mst.connect_status = true) (htc : tst.connect_status = true) :
    mdConnect mst ma r1 = some ({ mst with
      userid := ma.userid
      password := ma.password
      client_id := ma.client_id
      server_ip := ma.server_ip
      server_port := ma.server_port
      protocol := proto
      local_ip := ma.local_ip }, [MdOut.writeLog]) ∧
    tdConnect tst ta r2 = ({ tst with
      userid := ta.userid
      password := ta.password
      client_id := ta.client_id
      server_ip := ta.server_ip
      server_port := ta.server_port
      software_key := ta.software_key
      protocol := 1
      local_ip := ta.local_ip }, [TdOut.write_log]) := by
  constructor
  · unfold mdConnect
    rw [hp]
    simp [hmc]
  · unfold tdConnect
    simp [htc]

/-- The trading session W8tdst after its rejected connect call. -/
theorem connect_rejected_behavior_witness :
    mdConnect C8st C8args 1 = some (C8stAfter, [MdOut.writeLog]) ∧
    tdConnect W8tdst W8tdargs 1 = ({ W8tdst with
      userid := "newtd"
      password := "pw2"
      client_id := 8
      server_ip := "10.0.0.3"
      server_port := 6003
      software_key := "key"
      protocol := 1
      local_ip := "10.0.0.4" }, [TdOut.write_log]) :=
  connect_rejected_behavior C8st C8args 1 W8tdst W8tdargs 1 1 rfl rfl rfl

/-- C2: a trade-fill event whose order id matches no cached OrderRecord
is NOT dropped cleanly: the handler logs the inconsistency, but it still
publishes the trade via on_trade (line 794 runs unconditionally) and then
raises UnboundLocalError reading the unassigned local `order` at line
795.  No OrderRecord is created and no account refresh is triggered,
but the trade is published and the handler crashes. -/
theorem trade_unknown_order_crashes :
    onTradeEvent {} C2trade =
      { st := {}
        out := [TdOut.write_log, TdOut.on_trade C2tradePub]
        err := some PyErr.unboundLocalError } := by
  decide

/-- C3 counterexample: a tick whose timestamp EQUALS the last-accepted
timestamp is dropped by the monotonicity filter (datetime_a_le_b is a
less-or-equal test), contradicting the claim that it passes. -/
theorem equal_timestamp_tick_dropped :
    C3tick.data_time = 100 ∧
    alistGet C3st.last_tick_time "600000.SSE" = some 100 ∧
    onDepthMarketData C3st [] C3tick = (C3st, TickResult.droppedStale) := by
  decide

/-- C3 (amended): for a contract key with a recorded last-accepted
timestamp, the monotonicity filter drops an incoming tick iff its
timestamp is less than or EQUAL to the recorded one (an equal-timestamp
tick is also dropped), and a tick dropped by this filter leaves the whole
session state — in particular the last-seen timestamp — unchanged. -/
theorem stale_filter_le (st : MdState) (contracts : List (String × ContractData))
    (d : RawTick) (ex : Exchange) (last : Nat)
    (hex : EXCHANGE_XTP2VT d.exchange_id = some ex)
    (hlast : alistGet st.last_tick_time (d.ticker ++ "." ++ exchangeValue ex) =
      some last) :
    ((onDepthMarketData st contracts d).2 = TickResult.droppedStale ↔
      d.data_time ≤ last) ∧
    (d.data_time ≤ last →
      onDepthMarketData st contracts d = (st, TickResult.droppedStale)) := by
  unfold onDepthMarketData
  rw [hex]
  dsimp only
  rw [hlast]
  by_cases h : d.data_time ≤ last
  · simp [datetime_a_le_b, h]
  · simp only [datetime_a_le_b, decide_eq_true_eq, if_neg h]
    refine ⟨⟨?_, fun hc => absurd hc h⟩, fun hc => absurd hc h⟩
    intro hc
    split at hc
    · exact absurd hc (by simp)
    · exact absurd hc (by simp)

theorem stale_filter_le_witness :
    (((onDepthMarketData C3st [] C3tick).2 = TickResult.droppedStale) ↔
      C3tick.data_time ≤ 100) ∧
    (C3tick.data_time ≤ 100 →
      onDepthMarketData C3st [] C3tick = (C3st, TickResult.droppedStale)) :=
  stale_filter_le C3st [] C3tick Exchange.SSE 100 rfl (by decide)

/-- C4 counterexample: with all-market mode off and a registry holding
only (600000, SSE), a tick for symbol 600000 on SZSE — whose
(symbol, exchange) pair is NOT in the registry — is still published,
because the ownership filter compares the symbol only. -/
theorem foreign_exchange_tick_published :
    C4st.subscribe_all = false ∧
    EXCHANGE_XTP2VT C4tick.exchange_id = some Exchange.SZSE ∧
    C4tick.ticker = "600000" ∧
    ¬ (("600000", Exchange.SZSE) ∈ C4st.subscribe_request_list) ∧
    isPublished (onDepthMarketData C4st [] C4tick).2 = true := by
  refine ⟨rfl, rfl, rfl, by decide, by decide⟩

/-- C4 (amended): when all-market mode is not active, a tick is published
only if its SYMBOL equals the symbol component of some registry entry;
the exchange component of the registry entries is ignored by the filter,
so a tick is dropped exactly when no registry entry shares its symbol. -/
theorem published_tick_symbol_subscribed (st : MdState)
    (contracts : List (String × ContractData)) (d : RawTick)
    (hall : st.subscribe_all = false)
    (hpub : isPublished (onDepthMarketData st contracts d).2 = true) :
    is_sub_symbol st.subscribe_request_list d.ticker = true := by
  unfold onDepthMarketData at hpub
  cases hex : EXCHANGE_XTP2VT d.exchange_id with
  | none =>
    rw [hex] at hpub
    exact absurd hpub (by simp [isPublished])
  | some ex =>
    rw [hex] at hpub
    dsimp only at hpub
    split at hpub
    · exact absurd hpub (by simp [isPublished])
    · split at hpub
      · exact absurd hpub (by simp [isPublished])
      · next hguard =>
          rw [hall] at hguard
          simpa using hguard

theorem published_tick_symbol_subscribed_witness :
    C4st.subscribe_all = false ∧
    isPublished (onDepthMarketData C4st [] W4tick).2 = true ∧
    is_sub_symbol C4st.subscribe_request_list W4tick.ticker = true :=
  ⟨rfl, by decide,
    published_tick_symbol_subscribed C4st [] W4tick rfl (by decide)⟩

/-- C6: on an unsolicited market-data disconnect, if the registry is
non-empty and the re_auto_login_xtp policy is present with a value other
than "Y" (case-insensitively), the handler only logs and returns with the
statuses cleared — no backoff, no counter change, no login; in every
other case (registry empty, policy unset, or policy "Y") it sleeps the
fixed 3-second backoff, increments the reconnect counter by one, and
re-invokes the vendor login with the last-used connection parameters. -/
theorem md_disconnect_policy (st : MdState) (policy : Option String) (r : Nat) :
    ((st.subscribe_request_list ≠ [] ∧
        ∃ v, policy = some v ∧ strLower v ≠ strLower "Y") →
      onDisconnected st policy r =
        ({ st with connect_status := false, login_status := false },
          [MdOut.writeLog, MdOut.logInfo])) ∧
    ((st.subscribe_request_list = [] ∨ policy = none ∨
        (∃ v, policy = some v ∧ strLower v = strLower "Y")) →
      (onDisconnected st policy r).1.re_connect_times = st.re_connect_times + 1 ∧
      ∃ rest, (onDisconnected st policy r).2 =
        MdOut.writeLog :: MdOut.sleepSecs 3 ::
          MdOut.vendor (MdCall.login st.server_ip st.server_port st.userid
            st.password st.protocol st.local_ip) :: rest) := by
  constructor
  · rintro ⟨hne, v, rfl, hv⟩
    have hblocked : reconnectBlocked
        { st with connect_status := false, login_status := false } (some v) = true := by
      unfold reconnectBlocked
      simp only [Bool.and_eq_true, decide_eq_true_eq]
      exact ⟨List.length_pos.mpr hne,
        by simp [beq_eq_false_iff_ne.mpr (fun h => hv h.symm)]⟩
    unfold onDisconnected
    simp [hblocked]
  · intro hcase
    have hblocked : reconnectBlocked
        { st with connect_status := false, login_status := false } policy = false := by
      unfold reconnectBlocked
      rcases hcase with h | h | ⟨v, rfl, hv⟩
      · simp [h]
      · simp [h]
      · simp [hv]
    unfold onDisconnected
    simp only [hblocked, Bool.false_eq_true, if_false]
    by_cases hr : (r == 0) = true
    · simp only [login_server, hr, eq_self_iff_true, if_true]
      exact ⟨by trivial, _, rfl⟩
    · rw [Bool.not_eq_true] at hr
      simp only [login_server, hr, Bool.false_eq_true, if_false]
      exact ⟨by trivial, _, rfl⟩

theorem md_disconnect_policy_witness :
    (onDisconnected W6st (some "N") 1 =
      ({ W6st with connect_status := false, login_status := false },
        [MdOut.writeLog, MdOut.logInfo])) ∧
    ((onDisconnected W6st none 1).1.re_connect_times = W6st.re_connect_times + 1 ∧
      ∃ rest, (onDisconnected W6st none 1).2 =
        MdOut.writeLog :: MdOut.sleepSecs 3 ::
          MdOut.vendor (MdCall.login W6st.server_ip W6st.server_port W6st.userid
            W6st.password W6st.protocol W6st.local_ip) :: rest) :=
  ⟨(md_disconnect_policy W6st (some "N") 1).1 ⟨by decide, "N", rfl, by decide⟩,
    (md_disconnect_policy W6st none 1).2 (Or.inr (Or.inl rfl))⟩

/-- C7: in a resubscription cycle run with a non-empty registry while
logged in, an unsubscribe is issued for every registry entry, a subscribe
is issued for every registry entry, and in the emitted call sequence
every unsubscribe precedes every subscribe. -/
theorem resubscribe_two_phase (st : MdState) (h1 : st.login_status = true)
    (h2 : st.subscribe_request_list ≠ []) :
    (∀ req ∈ st.subscribe_request_list,
      MdCall.unSubscribeMarketData req.1 1 (EXCHANGE_VT2XTP req.2) ∈ re_subscribe st ∧
      MdCall.subscribeMarketData req.1 1 (EXCHANGE_VT2XTP req.2) ∈ re_subscribe st) ∧
    (∀ (i j : Nat) (ci cj : MdCall),
      (re_subscribe st)[i]? = some ci → (re_subscribe st)[j]? = some cj →
      isUnsubCall ci = true → isSubCall cj = true → i < j) := by
  have heq := re_subscribe_eq st h1 h2
  constructor
  · intro req hreq
    rw [heq]
    exact ⟨List.mem_append_left _ (List.mem_map_of_mem _ hreq),
      List.mem_append_right _ (List.mem_map_of_mem _ hreq)⟩
  · intro i j ci cj hci hcj hpi hqj
    rw [heq] at hci hcj
    refine append_phase_lt _ _ isUnsubCall isSubCall ?_ ?_ i j ci cj hci hcj hpi hqj
    · intro a ha
      obtain ⟨req, _, rfl⟩ := List.mem_map.mp ha
      rfl
    · intro b hb
      obtain ⟨req, _, rfl⟩ := List.mem_map.mp hb
      rfl

theorem resubscribe_two_phase_witness :
    (("600000", Exchange.SSE) ∈ W7st.subscribe_request_list) ∧
    MdCall.unSubscribeMarketData "600000" 1 1 ∈ re_subscribe W7st ∧
    MdCall.subscribeMarketData "600000" 1 1 ∈ re_subscribe W7st :=
  ⟨by decide,
    (resubscribe_two_phase W7st rfl (by decide)).1 ("600000", Exchange.SSE) (by decide)⟩

/-- C1 counterexample: the reconciler enforces neither half of the claim.
Starting from a CANCELLED order for 100 shares, a 40-share fill moves the
status out of the terminal state (to PARTTRADED), and a further 100-share
fill drives traded to 140, exceeding the requested volume of 100. -/
theorem terminal_status_and_bound_counterexample :
    (alistGet C1st.orders "1").map OrderData.status = some Status.CANCELLED ∧
    (alistGet C1st.orders "1").map OrderData.volume = some 100 ∧
    (alistGet (onTradeEvent C1st C1fill1).st.orders "1").map OrderData.status =
      some Status.PARTTRADED ∧
    (alistGet (onTradeEvent (onTradeEvent C1st C1fill1).st C1fill2).st.orders "1").map
      OrderData.traded = some 140 := by
  decide

theorem query_account_orders (st : TdState) :
    (query_account st).1.orders = st.orders := by
  unfold query_account
  split <;> rfl

theorem query_credit_asset_orders (st : TdState) :
    (query_credit_asset st).1.orders = st.orders := by
  unfold query_credit_asset
  split <;> rfl

/-- Replacing one entry with a bounded order keeps the cache bounded. -/
theorem ordersBounded_set (st : TdState) (k : String) (q : OrderData)
    (hb : ordersBounded st) (hq : q.traded ≤ q.volume) :
    ordersBounded { st with orders := alistSet st.orders k q } := by
  intro p hp
  rcases mem_alistSet _ _ _ p hp with rfl | hmem
  · exact hq
  · exact hb p hmem

/-- An order-update event that fits preserves the traded-within-volume
invariant of the cache. -/
theorem onOrderEvent_bounded (st : TdState) (d : OrderEventData) (e : Nat)
    (hb : ordersBounded st) (hfit : eventFits st (.orderEvent d e) = true) :
    ordersBounded (onOrderEvent st d e).st := by
  simp only [eventFits] at hfit
  unfold onOrderEvent
  cases hdec : decodeOrderFields d.ticker d.side d.position_effect d.price_type with
  | none => exact hb
  | some dec =>
    dsimp only
    cases hget : alistGet st.orders (toString d.order_xtp_id) with
    | none =>
      rw [hget] at hfit
      simp only [decide_eq_true_eq] at hfit
      cases hmkt : MARKET_XTP2VT d.market with
      | none => exact hb
      | some exch =>
        cases hst : STATUS_XTP2VT d.order_status with
        | none => exact hb
        | some status =>
          dsimp only
          refine ordersBounded_set st _ _ hb ?_
          split <;> exact hfit
    | some order0 =>
      rw [hget] at hfit
      simp only [decide_eq_true_eq] at hfit
      cases hst : STATUS_XTP2VT d.order_status with
      | none => exact hb
      | some status =>
        dsimp only
        refine ordersBounded_set st _ _ hb ?_
        split <;> exact hfit

/-- A trade-fill event that fits preserves the traded-within-volume
invariant of the cache. -/
theorem onTradeEvent_bounded (st : TdState) (d : TradeEventData)
    (hb : ordersBounded st) (hfit : eventFits st (.tradeEvent d) = true) :
    ordersBounded (onTradeEvent st d).st := by
  simp only [eventFits] at hfit
  unfold onTradeEvent
  cases hdec : decodeTradeFields d.ticker d.side d.position_effect with
  | none => exact hb
  | some dec =>
    cases hmkt : MARKET_XTP2VT d.market with
    | none => exact hb
    | some exch =>
      dsimp only
      cases hget : alistGet st.orders (toString d.order_xtp_id) with
      | none => exact hb
      | some order0 =>
        rw [hget] at hfit
        simp only [decide_eq_true_eq] at hfit
        dsimp only
        split
        · intro p hp
          rw [query_credit_asset_orders, query_account_orders] at hp
          exact ordersBounded_set st _ _ hb hfit p hp
        · exact ordersBounded_set st _ _ hb hfit

/-- Any fitting, non-raising event sequence preserves the
traded-within-volume invariant. -/
theorem applyEvents_bounded (evs : List TdEvent) :
    ∀ st st', ordersBounded st → fitsFrom st evs = true →
      applyEvents st evs = Except.ok st' → ordersBounded st' := by
  induction evs with
  | nil =>
    intro st st' hb _ happ
    unfold applyEvents at happ
    cases happ
    exact hb
  | cons ev rest ih =>
    intro st st' hb hf happ
    unfold fitsFrom at hf
    rw [Bool.and_eq_true, Bool.and_eq_true] at hf
    obtain ⟨hfit, -, hrest⟩ := hf
    unfold applyEvents at happ
    cases herr : (applyEvent st ev).err with
    | some err =>
      rw [herr] at happ
      exact absurd happ (by simp)
    | none =>
      rw [herr] at happ
      have hstep : ordersBounded (applyEvent st ev).st := by
        cases ev with
        | orderEvent d e => exact onOrderEvent_bounded st d e hb hfit
        | tradeEvent d => exact onTradeEvent_bounded st d hb hfit
      exact ih _ _ hstep hrest happ

/-- C1 (amended): order-update events overwrite traded/status with the
event's values and trade-fill events increment traded, with no
enforcement by the reconciler.  Provided every applied event fits — each
order-update reports a traded quantity within the order's requested
volume and each fill lands on a known order within its remaining
quantity — the traded volume of every cached order stays at most its
requested volume.  The terminal-status half of the original claim is
false (see the counterexample): a fill recomputes the status of a
Cancelled/Rejected/AllTraded order to PartTraded or AllTraded, and an
order-update sets whatever status the event carries. -/
theorem traded_le_volume_of_fits (st : TdState) (evs : List TdEvent) (st' : TdState)
    (hb : ordersBounded st) (hf : fitsFrom st evs = true)
    (happ : applyEvents st evs = Except.ok st') : ordersBounded st' :=
  applyEvents_bounded evs st st' hb hf happ

theorem traded_le_volume_of_fits_witness :
    ordersBounded W1st ∧ fitsFrom W1st W1evs = true ∧
    applyEvents W1st W1evs = Except.ok W1res ∧ ordersBounded W1res :=
  ⟨by decide, by decide, by rfl,
    traded_le_volume_of_fits W1st W1evs W1res (by decide) (by decide) (by rfl)⟩

/-- C5: a trade-fill that matches a cached order increments the order's
traded volume by exactly the fill volume, recomputes the status as
PARTTRADED below the requested volume and ALLTRADED otherwise, publishes
the updated order and the trade, raises no exception, and triggers the
account/credit refresh exactly when the recomputed status is PARTTRADED
or ALLTRADED (which, after a fill, is always the case). -/
theorem trade_fill_merge_spec (st : TdState) (d : TradeEventData) (o : OrderData)
    (dec : Direction × Offset) (exch : Exchange)
    (hdec : decodeTradeFields d.ticker d.side d.position_effect = some dec)
    (hm : MARKET_XTP2VT d.market = some exch)
    (ho : alistGet st.orders (toString d.order_xtp_id) = some o)
    (hc : st.connect_status = true) :
    (onTradeEvent st d).err = none ∧
    alistGet (onTradeEvent st d).st.orders (toString d.order_xtp_id) =
      some (mergeFill o d.quantity) ∧
    (mergeFill o d.quantity).traded = o.traded + d.quantity ∧
    (mergeFill o d.quantity).status =
      (if o.traded + d.quantity < o.volume then Status.PARTTRADED
        else Status.ALLTRADED) ∧
    TdOut.on_order (mergeFill o d.quantity) ∈ (onTradeEvent st d).out ∧
    TdOut.on_trade
      { symbol := d.ticker
        exchange := exch
        orderid := toString d.order_xtp_id
        tradeid := toString d.exec_id
        direction := dec.1
        offset := dec.2
        price := d.price
        volume := d.quantity
        datetime := d.trade_time } ∈ (onTradeEvent st d).out ∧
    (((onTradeEvent st d).out.any isAccountRefreshCall = true) ↔
      ((mergeFill o d.quantity).status = Status.PARTTRADED ∨
        (mergeFill o d.quantity).status = Status.ALLTRADED)) := by
  have hcond : (((mergeFill o d.quantity).status == Status.PARTTRADED) ||
      ((mergeFill o d.quantity).status == Status.ALLTRADED)) = true := by
    unfold mergeFill
    dsimp only
    split <;> rfl
  unfold onTradeEvent
  rw [hdec, hm]
  dsimp only
  rw [ho]
  dsimp only
  rw [if_pos hcond]
  simp only [query_account, query_credit_asset, hc, Bool.not_true,
    Bool.false_eq_true, if_false]
  refine ⟨by trivial, ?_, by trivial, by trivial, by simp, by simp, ?_, ?_⟩
  · rw [alistGet_alistSet, if_pos rfl]
  · intro _
    unfold mergeFill
    dsimp only
    split
    · exact Or.inl rfl
    · exact Or.inr rfl
  · intro _
    rfl

theorem trade_fill_merge_spec_witness :
    (onTradeEvent W5st W5fill).err = none ∧
    alistGet (onTradeEvent W5st W5fill).st.orders (toString W5fill.order_xtp_id) =
      some (mergeFill W5order W5fill.quantity) ∧
    (mergeFill W5order W5fill.quantity).traded = W5order.traded + W5fill.quantity ∧
    (mergeFill W5order W5fill.quantity).status =
      (if W5order.traded + W5fill.quantity < W5order.volume then Status.PARTTRADED
        else Status.ALLTRADED) ∧
    TdOut.on_order (mergeFill W5order W5fill.quantity) ∈ (onTradeEvent W5st W5fill).out ∧
    TdOut.on_trade
      { symbol := W5fill.ticker
        exchange := Exchange.SSE
        orderid := toString W5fill.order_xtp_id
        tradeid := toString W5fill.exec_id
        direction := (Direction.LONG, Offset.NONE).1
        offset := (Direction.LONG, Offset.NONE).2
        price := W5fill.price
        volume := W5fill.quantity
        datetime := W5fill.trade_time } ∈ (onTradeEvent W5st W5fill).out ∧
    (((onTradeEvent W5st W5fill).out.any isAccountRefreshCall = true) ↔
      ((mergeFill W5order W5fill.quantity).status = Status.PARTTRADED ∨
        (mergeFill W5order W5fill.quantity).status = Status.ALLTRADED)) :=
  trade_fill_merge_spec W5st W5fill W5order (Direction.LONG, Offset.NONE)
    Exchange.SSE rfl rfl (by decide) rfl

/-! Credit-debt pagination (C9). -/

theorem debtSum_append (l : List DebtData) (d : DebtData) (s : String) :
    debtSum (l ++ [d]) s =
      debtSum l s +
        (if (d.debt_type == 1 && d.ticker == s) = true then d.remain_qty else 0) := by
  unfold debtSum
  rw [List.filter_append, List.map_append, List.sum_append]
  congr 1
  by_cases h : (d.debt_type == 1 && d.ticker == s) = true
  · rw [if_pos h]
    simp [List.filter_cons, h]
  · rw [if_neg h]
    simp only [Bool.not_eq_true] at h
    simp [List.filter_cons, h]

theorem hasDebt_append (l : List DebtData) (d : DebtData) (s : String) :
    hasDebt (l ++ [d]) s = (hasDebt l s || (d.debt_type == 1 && d.ticker == s)) := by
  unfold hasDebt
  rw [List.any_append]
  congr 1
  simp

theorem debtSum_eq_zero (l : List DebtData) (s : String)
    (h : hasDebt l s = false) : debtSum l s = 0 := by
  unfold hasDebt at h
  rw [List.any_eq_false] at h
  unfold debtSum
  rw [List.filter_eq_nil_iff.mpr h]
  rfl

theorem AccOk_nil : AccOk [] [] := by
  refine ⟨List.nodup_nil, ?_, ?_⟩
  · intro p hp
    cases hp
  · intro s
    rfl

/-- Accumulating one debt_type-1 row preserves the accumulator
invariant, extending the processed-page list by the row. -/
theorem debtUpsert_accok (processed : List DebtData)
    (acc : List (String × PositionData)) (d : DebtData) (exch : Exchange)
    (hAcc : AccOk processed acc) (hdt1 : d.debt_type = 1) :
    AccOk (processed ++ [d]) (debtUpsert acc d.ticker exch d.remain_qty) := by
  obtain ⟨hnd, hmem, hsome⟩ := hAcc
  have hdtb : (d.debt_type == 1) = true := by simp [hdt1]
  unfold debtUpsert
  set base := (alistGet acc d.ticker).getD
    { symbol := d.ticker, exchange := exch, direction := Direction.SHORT } with hbdef
  have hbase : base.symbol = d.ticker ∧ base.direction = Direction.SHORT ∧
      base.volume = debtSum processed d.ticker := by
    rw [hbdef]
    cases hga : alistGet acc d.ticker with
    | none =>
      have h0 := hsome d.ticker
      rw [hga] at h0
      simp only [Option.isSome_none] at h0
      simp [Option.getD_none, debtSum_eq_zero processed d.ticker h0.symm]
    | some p =>
      simp only [Option.getD_some]
      have hpm := hmem (d.ticker, p) (alistGet_some_mem _ _ _ hga)
      exact hpm
  refine ⟨nodup_keys_alistSet _ _ _ hnd, ?_, ?_⟩
  · intro q hq
    rcases mem_alistSet_nodup _ _ _ hnd q hq with rfl | ⟨hqmem, hqne⟩
    · refine ⟨hbase.1, hbase.2.1, ?_⟩
      show base.volume + d.remain_qty = debtSum (processed ++ [d]) d.ticker
      rw [debtSum_append, if_pos (by simp [hdtb]), hbase.2.2]
    · have hq3 := hmem q hqmem
      refine ⟨hq3.1, hq3.2.1, ?_⟩
      have hcf : ¬ ((d.debt_type == 1 && d.ticker == q.1) = true) := by
        simp [beq_eq_false_iff_ne.mpr (Ne.symm hqne)]
      rw [debtSum_append, if_neg hcf, Nat.add_zero]
      exact hq3.2.2
  · intro s
    rw [alistGet_alistSet, hasDebt_append]
    by_cases hks : d.ticker = s
    · rw [if_pos hks]
      subst hks
      simp [hdtb]
    · rw [if_neg hks]
      have hcf : (d.debt_type == 1 && d.ticker == s) = false := by
        simp [beq_eq_false_iff_ne.mpr hks]
      rw [hcf, Bool.or_false]
      exact hsome s

/-- One call of debtAccumulate succeeds on a valid market and preserves
the accumulator invariant. -/
theorem debtAccumulate_accok (st : TdState) (d : DebtData) (processed : List DebtData)
    (hAcc : AccOk processed st.short_positions)
    (hmkt : d.debt_type = 1 → (MARKET_XTP2VT d.market).isSome = true) :
    ∃ st1, debtAccumulate st d = some st1 ∧
      AccOk (processed ++ [d]) st1.short_positions := by
  unfold debtAccumulate
  by_cases hdt1 : d.debt_type = 1
  · have hdtb : (d.debt_type == 1) = true := by simp [hdt1]
    rw [if_pos hdtb]
    cases hm : MARKET_XTP2VT d.market with
    | none =>
      have hcontra := hmkt hdt1
      rw [hm] at hcontra
      simp at hcontra
    | some exch =>
      exact ⟨_, rfl, debtUpsert_accok processed st.short_positions d exch hAcc hdt1⟩
  · have hdtb : (d.debt_type == 1) = false := by simp [hdt1]
    rw [if_neg (by simp [hdtb])]
    refine ⟨st, rfl, ?_⟩
    obtain ⟨hnd, hmem, hsome⟩ := hAcc
    have hcf : ∀ s : String, (d.debt_type == 1 && d.ticker == s) = false := by
      intro s
      rw [hdtb, Bool.false_and]
    refine ⟨hnd, ?_, ?_⟩
    · intro q hq
      have hq3 := hmem q hq
      refine ⟨hq3.1, hq3.2.1, ?_⟩
      rw [debtSum_append, if_neg (by simp [hcf q.1]), Nat.add_zero]
      exact hq3.2.2
    · intro s
      rw [hasDebt_append, hcf s, Bool.or_false]
      exact hsome s

/-- Processing the non-final pages of a debt response publishes nothing
and keeps the accumulator invariant running. -/
theorem processDebt_go (pages : List DebtData) :
    ∀ (st : TdState) (processed : List DebtData),
      AccOk processed st.short_positions →
      (∀ p ∈ pages, p.debt_type = 1 → (MARKET_XTP2VT p.market).isSome = true) →
      ∃ st', processDebtPages st (pages.map (fun p => (p, false))) =
          Except.ok (st', pages.map (fun _ => ([] : List TdOut))) ∧
        AccOk (processed ++ pages) st'.short_positions := by
  induction pages with
  | nil =>
    intro st processed hAcc _
    exact ⟨st, rfl, by simpa using hAcc⟩
  | cons d rest ih =>
    intro st processed hAcc hmkt
    obtain ⟨st1, heq, hAcc1⟩ := debtAccumulate_accok st d processed hAcc
      (hmkt d (List.mem_cons_self _ _))
    have hstep : onQueryCreditDebtInfo st d false = { st := st1, out := [] } := by
      unfold onQueryCreditDebtInfo
      rw [heq]
      rfl
    obtain ⟨st', hproc, hAcc'⟩ := ih st1 (processed ++ [d]) hAcc1
      (fun p hp => hmkt p (List.mem_cons_of_mem _ hp))
    refine ⟨st', ?_, ?_⟩
    · simp only [List.map_cons]
      unfold processDebtPages
      rw [hstep]
      dsimp only
      rw [hproc]
    · rw [List.append_assoc] at hAcc'
      simpa using hAcc'

/-- Unfolding lemma for one processed page. -/
theorem processDebtPages_cons (st : TdState) (d : DebtData) (last : Bool)
    (rest : List (DebtData × Bool)) :
    processDebtPages st ((d, last) :: rest) =
      match (onQueryCreditDebtInfo st d last).err with
      | some e => Except.error e
      | none =>
        match processDebtPages (onQueryCreditDebtInfo st d last).st rest with
        | .ok (st', outs) =>
          Except.ok (st', (onQueryCreditDebtInfo st d last).out :: outs)
        | .error e => Except.error e := rfl

/-- Splitting a paginated run at a page boundary. -/
theorem processDebtPages_append_ok (qs : List (DebtData × Bool))
    (ps : List (DebtData × Bool)) :
    ∀ (st stA : TdState) (outsA : List (List TdOut)),
      processDebtPages st ps = Except.ok (stA, outsA) →
      processDebtPages st (ps ++ qs) =
        match processDebtPages stA qs with
        | .ok r2 => Except.ok (r2.1, outsA ++ r2.2)
        | .error e => Except.error e := by
  induction ps with
  | nil =>
    intro st stA outsA h
    cases h
    rw [List.nil_append]
    cases hq : processDebtPages st qs with
    | ok r2 => rfl
    | error e => rfl
  | cons p rest ih =>
    obtain ⟨d, last⟩ := p
    intro st stA outsA h
    rw [List.cons_append]
    rw [processDebtPages_cons] at h ⊢
    cases herr : (onQueryCreditDebtInfo st d last).err with
    | some e =>
      rw [herr] at h
      exact absurd h (by simp)
    | none =>
      rw [herr] at h
      cases hrest : processDebtPages (onQueryCreditDebtInfo st d last).st rest with
      | error e =>
        rw [hrest] at h
        exact absurd h (by simp)
      | ok r =>
        obtain ⟨stR, outsR⟩ := r
        rw [hrest] at h
        dsimp only at h
        injection h with h
        injection h with h1 h2
        subst h1
        subst h2
        rw [ih _ _ _ hrest]
        cases hq : processDebtPages stR qs with
        | ok r2 => rfl
        | error e => rfl

/-- The final page of a debt response: the accumulated totals are
published as Short positions with the per-symbol debt sums, and the
accumulator is cleared. -/
theorem debt_last_page (st : TdState) (dLast : DebtData) (processed : List DebtData)
    (hAcc : AccOk processed st.short_positions)
    (hmkt : dLast.debt_type = 1 → (MARKET_XTP2VT dLast.market).isSome = true) :
    ∃ st1 : TdState,
      onQueryCreditDebtInfo st dLast true =
        { st := { st1 with short_positions := [] }
          out := st1.short_positions.map (fun p => TdOut.on_position p.2) } ∧
      (∀ pos : PositionData,
        TdOut.on_position pos ∈ st1.short_positions.map (fun p => TdOut.on_position p.2) →
        pos.direction = Direction.SHORT ∧
        pos.volume = debtSum (processed ++ [dLast]) pos.symbol) ∧
      (∀ s : String, hasDebt (processed ++ [dLast]) s = true →
        ∃ pos : PositionData,
          TdOut.on_position pos ∈ st1.short_positions.map (fun p => TdOut.on_position p.2) ∧
          pos.symbol = s) := by
  obtain ⟨st1, heq, hAcc1⟩ := debtAccumulate_accok st dLast processed hAcc hmkt
  refine ⟨st1, ?_, ?_, ?_⟩
  · unfold onQueryCreditDebtInfo
    rw [heq]
    rfl
  · intro pos hpos
    rw [List.mem_map] at hpos
    obtain ⟨q, hqmem, hqeq⟩ := hpos
    have hq2 : q.2 = pos := by injection hqeq
    obtain ⟨hsym, hdir, hvol⟩ := hAcc1.2.1 q hqmem
    rw [hq2] at hsym hdir hvol
    refine ⟨hdir, ?_⟩
    rw [hsym]
    exact hvol
  · intro s hs
    have h1 := hAcc1.2.2 s
    rw [hs] at h1
    obtain ⟨v, hv⟩ := Option.isSome_iff_exists.mp h1
    have hvm := alistGet_some_mem _ _ _ hv
    have h3 := hAcc1.2.1 (s, v) hvm
    exact ⟨v, List.mem_map_of_mem _ hvm, h3.1⟩

/-- C9: a paginated credit-debt response sums the per-symbol remaining
debt across all pages; nothing is published on a non-final page; on the
final page every accumulated symbol is published as a Short
PositionRecord whose volume is the sum of that symbol's per-page
remainders, and the accumulator ends empty. -/
theorem credit_debt_pagination (st : TdState) (pages : List DebtData) (dLast : DebtData)
    (h0 : st.short_positions = [])
    (hmkt : ∀ p ∈ pages ++ [dLast], p.debt_type = 1 →
      (MARKET_XTP2VT p.market).isSome = true) :
    ∃ (st' : TdState) (lastOut : List TdOut),
      processDebtPages st (pages.map (fun p => (p, false)) ++ [(dLast, true)]) =
        Except.ok (st', pages.map (fun _ => ([] : List TdOut)) ++ [lastOut]) ∧
      st'.short_positions = [] ∧
      (∀ pos : PositionData, TdOut.on_position pos ∈ lastOut →
        pos.direction = Direction.SHORT ∧
        pos.volume = debtSum (pages ++ [dLast]) pos.symbol) ∧
      (∀ s : String, hasDebt (pages ++ [dLast]) s = true →
        ∃ pos : PositionData, TdOut.on_position pos ∈ lastOut ∧ pos.symbol = s) := by
  have hAcc0 : AccOk [] st.short_positions := by
    rw [h0]
    exact AccOk_nil
  obtain ⟨st1, hproc1, hAcc1⟩ := processDebt_go pages st [] hAcc0
    (fun p hp => hmkt p (List.mem_append_left _ hp))
  have hAcc1' : AccOk pages st1.short_positions := by simpa using hAcc1
  obtain ⟨st2, hlast, hfacts1, hfacts2⟩ := debt_last_page st1 dLast pages hAcc1'
    (hmkt dLast (List.mem_append_right _ (List.mem_cons_self _ _)))
  refine ⟨{ st2 with short_positions := [] },
    st2.short_positions.map (fun p => TdOut.on_position p.2), ?_, rfl, hfacts1, hfacts2⟩
  have hsingle : processDebtPages st1 [(dLast, true)] =
      Except.ok ({ st2 with short_positions := [] },
        [st2.short_positions.map (fun p => TdOut.on_position p.2)]) := by
    unfold processDebtPages
    rw [hlast]
    rfl
  rw [processDebtPages_append_ok [(dLast, true)] _ st st1 _ hproc1, hsingle]

theorem credit_debt_pagination_witness :
    ∃ (st' : TdState) (lastOut : List TdOut),
      processDebtPages {} (W9pages.map (fun p => (p, false)) ++ [(W9last, true)]) =
        Except.ok (st', W9pages.map (fun _ => ([] : List TdOut)) ++ [lastOut]) ∧
      st'.short_positions = [] ∧
      (∀ pos : PositionData, TdOut.on_position pos ∈ lastOut →
        pos.direction = Direction.SHORT ∧
        pos.volume = debtSum (W9pages ++ [W9last]) pos.symbol) ∧
      (∀ s : String, hasDebt (W9pages ++ [W9last]) s = true →
        ∃ pos : PositionData, TdOut.on_position pos ∈ lastOut ∧ pos.symbol = s) :=
  credit_debt_pagination {} W9pages W9last rfl (by decide)

end VnpyXtp
